import Mathlib

/-!
Verification of the figma-to-shotstack converter (`src/converter.py`).

The Python source is shallowly embedded over `ℚ` (Python floats are modelled
as exact rationals; `round(x, 3)` is modelled as round-half-to-even at three
decimal digits).  Strings are Lean `String`s; Python's `str.lower`/`str.upper`
are modelled by the ASCII case maps, and `dict.get` defaults are modelled with
`Option.getD`.  Division in the happy path is total `ℚ` division; the
`ZeroDivisionError` behaviour of `_calculate_offset` on a zero canvas is
modelled separately by `calculate_offset_checked`, which returns `Except`.
-/

namespace FigmaShotstack

/-- Round-half-to-even on `ℚ`, the tie-breaking rule of Python's `round`. -/
def roundHalfEven (q : ℚ) : ℤ :=
  if q - (⌊q⌋ : ℚ) < 1/2 then ⌊q⌋
  else if 1/2 < q - (⌊q⌋ : ℚ) then ⌊q⌋ + 1
  else if ⌊q⌋ % 2 = 0 then ⌊q⌋ else ⌊q⌋ + 1

/-- Model of Python `round(q, 3)`: round half to even at three decimals. -/
def round3 (q : ℚ) : ℚ := (roundHalfEven (q * 1000) : ℚ) / 1000

/-- Model of Python `round(q, 2)` (used only for `_expected_aspect`). -/
def round2 (q : ℚ) : ℚ := (roundHalfEven (q * 100) : ℚ) / 100

theorem roundHalfEven_ge_floor (q : ℚ) : ⌊q⌋ ≤ roundHalfEven q := by
  unfold roundHalfEven
  split_ifs <;> omega

theorem roundHalfEven_le_floor_add_one (q : ℚ) : roundHalfEven q ≤ ⌊q⌋ + 1 := by
  unfold roundHalfEven
  split_ifs <;> omega

theorem roundHalfEven_le_of_le {q : ℚ} {n : ℤ} (h : q ≤ n) : roundHalfEven q ≤ n := by
  have hf : ⌊q⌋ ≤ n := by
    have := Int.floor_le_floor h
    simpa using this
  rcases lt_or_eq_of_le hf with hlt | heq
  · exact (roundHalfEven_le_floor_add_one q).trans (by omega)
  · have hq : q = (n : ℚ) := le_antisymm h (by
      have := Int.floor_le q
      rw [heq] at this
      exact this)
    subst hq
    unfold roundHalfEven
    have hfl : ⌊(n : ℚ)⌋ = n := Int.floor_intCast n
    rw [hfl]
    have hzero : (n : ℚ) - (n : ℚ) = 0 := by ring
    rw [hzero]
    norm_num

theorem roundHalfEven_ge_of_ge {q : ℚ} {n : ℤ} (h : (n : ℚ) ≤ q) : n ≤ roundHalfEven q := by
  have hf : n ≤ ⌊q⌋ := Int.le_floor.mpr h
  exact hf.trans (roundHalfEven_ge_floor q)

theorem round3_le_one {q : ℚ} (h : q ≤ 1) : round3 q ≤ 1 := by
  unfold round3
  have h1000 : q * 1000 ≤ ((1000 : ℤ) : ℚ) := by push_cast; linarith
  have := roundHalfEven_le_of_le h1000
  rw [div_le_one (by norm_num)]
  exact_mod_cast this

theorem neg_one_le_round3 {q : ℚ} (h : -1 ≤ q) : -1 ≤ round3 q := by
  unfold round3
  have h1000 : ((-1000 : ℤ) : ℚ) ≤ q * 1000 := by push_cast; linarith
  have hge := roundHalfEven_ge_of_ge h1000
  rw [le_div_iff₀ (by norm_num : (0:ℚ) < 1000)]
  have hc : ((-1000 : ℤ) : ℚ) ≤ (roundHalfEven (q * 1000) : ℚ) := by exact_mod_cast hge
  push_cast at hc
  linarith

theorem roundHalfEven_mono {p q : ℚ} (h : p ≤ q) : roundHalfEven p ≤ roundHalfEven q := by
  rcases lt_or_eq_of_le (Int.floor_le_floor h) with hlt | heq
  · calc roundHalfEven p ≤ ⌊p⌋ + 1 := roundHalfEven_le_floor_add_one p
      _ ≤ ⌊q⌋ := by omega
      _ ≤ roundHalfEven q := roundHalfEven_ge_floor q
  · have hr : p - (⌊p⌋ : ℚ) ≤ q - (⌊q⌋ : ℚ) := by
      rw [heq]; linarith
    unfold roundHalfEven
    rw [heq] at hr ⊢
    split_ifs <;> first | omega | linarith

theorem round3_mono {p q : ℚ} (h : p ≤ q) : round3 p ≤ round3 q := by
  unfold round3
  have := roundHalfEven_mono (by linarith : p * 1000 ≤ q * 1000)
  apply div_le_div_of_nonneg_right ?_ (by norm_num)
  exact_mod_cast this

theorem round3_zero : round3 0 = 0 := by
  unfold round3 roundHalfEven
  norm_num

/-! ### String helpers (ASCII models of the Python string operations) -/

/-- ASCII model of Python `str.lower`. -/
def lowerStr (s : String) : String := String.mk (s.data.map Char.toLower)

/-- ASCII model of Python `str.upper`. -/
def upperStr (s : String) : String := String.mk (s.data.map Char.toUpper)

/-- Model of Python `str.replace(' ', '_')`. -/
def replaceSpaces (s : String) : String :=
  String.mk (s.data.map (fun c => if c = ' ' then '_' else c))

/-- Does the character list `s` start with `pat`? -/
def startsWithList : List Char → List Char → Bool
  | [], _ => true
  | _ :: _, [] => false
  | p :: ps, c :: cs => p == c && startsWithList ps cs

/-- Does the character list `s` contain `pat` as a contiguous run?
Model of Python's `pat in s` on strings. -/
def hasSubList (pat : List Char) : List Char → Bool
  | [] => pat.isEmpty
  | c :: cs => startsWithList pat (c :: cs) || hasSubList pat cs

/-- Model of Python's substring test `pat in s`. -/
def containsStr (s pat : String) : Bool := hasSubList pat.data s.data

/-- ASCII model of the regex class `\w`: alphanumeric or underscore. -/
def isWordChar (c : Char) : Bool := c.isAlphanum || c == '_'

/-- Model of the regex class `\s` (Python whitespace). -/
def isSpaceChar (c : Char) : Bool :=
  c == ' ' || c == '\t' || c == '\n' || c == '\r' || c == '\x0b' || c == '\x0c'

/-- Try to match the regex `\x7b\x7b\s*(\w+)\s*\x7d\x7d` anchored at the head of
the character list, returning the captured group.  Because `\s`, `\w` and the
brace are pairwise disjoint character classes, greedy matching without
backtracking is equivalent to the regex engine's behaviour. -/
def matchVarAt (cs : List Char) : Option String :=
  match cs with
  | '\x7b' :: '\x7b' :: rest =>
    let afterSp := rest.dropWhile isSpaceChar
    let name := afterSp.takeWhile isWordChar
    let afterName := afterSp.dropWhile isWordChar
    if name.isEmpty then none
    else
      match afterName.dropWhile isSpaceChar with
      | '\x7d' :: '\x7d' :: _ => some (String.mk name)
      | _ => none
  | _ => none

/-- Leftmost match of the placeholder regex: model of
`re.search(r'placeholder pattern', src)` followed by `group(1)`. -/
def findVarIn : List Char → Option String
  | [] => none
  | c :: cs =>
    match matchVarAt (c :: cs) with
    | some n => some n
    | none => findVarIn cs

/-- Model of the merge-variable scan in `convert_to_shotstack`: first the
guard testing that a double opening brace occurs in the asset src (read with
an empty-string default), then the regex search for the placeholder name. -/
def findMergeVar (src : String) : Option String :=
  if containsStr src "\x7b\x7b" then findVarIn src.data else none

/-- Model of the sanitizing regex substitution applied to page names (ASCII
word characters): every character that is not alphanumeric, underscore or
hyphen is replaced by an underscore. -/
def sanitizeName (s : String) : String :=
  String.mk (s.data.map (fun c => if isWordChar c || c == '-' then c else '_'))

/-! ### Data model: Figma design nodes -/

/-- Bounding box of a Figma node; each field is optional because the Python
code reads them with `bbox.get(field, default)`. -/
structure BBox where
  x : Option ℚ
  y : Option ℚ
  width : Option ℚ
  height : Option ℚ
deriving DecidableEq

/-- An RGB color with 0–1 float channels, each read via `get` with default 0. -/
structure FillColor where
  r : Option ℚ
  g : Option ℚ
  b : Option ℚ
deriving DecidableEq

/-- One entry of a node's `fills` list. -/
structure Fill where
  ftype : String
  color : Option FillColor
deriving DecidableEq

/-- The optional `style` dict of a Text node. -/
structure TextStyle where
  fontFamily : Option String
  fontSize : Option ℚ
deriving DecidableEq

/-- A Figma design node.  The field `ntype` models the type read from the
node dict (an absent type is modelled as `""`, which compares unequal to
every type literal exactly like the `None` of Python).  The other optional
fields model `node.get(...)` returning `None`. -/
inductive Node : Type where
  | mk : Option String → String → Option String → Option BBox → List Fill →
         Option TextStyle → Option String → List Node → Node

def Node.id : Node → Option String
  | .mk i _ _ _ _ _ _ _ => i

def Node.ntype : Node → String
  | .mk _ t _ _ _ _ _ _ => t

def Node.name : Node → Option String
  | .mk _ _ n _ _ _ _ _ => n

def Node.bbox : Node → Option BBox
  | .mk _ _ _ b _ _ _ _ => b

def Node.fills : Node → List Fill
  | .mk _ _ _ _ f _ _ _ => f

def Node.style : Node → Option TextStyle
  | .mk _ _ _ _ _ s _ _ => s

def Node.characters : Node → Option String
  | .mk _ _ _ _ _ _ c _ => c

def Node.children : Node → List Node
  | .mk _ _ _ _ _ _ _ c => c

/-- Model of the bounding-box read with an empty-dict default. -/
def Node.bboxD (n : Node) : BBox := n.bbox.getD ⟨none, none, none, none⟩

/-! ### Data model: Shotstack output -/

/-- A Shotstack asset: either an image asset with a `src`, or an html asset
(produced only by the dead `_parse_text_node` path). -/
inductive Asset : Type where
  | image (src : String)
  | html (width : ℤ) (height : ℤ) (body : String) (css : String)
deriving DecidableEq

/-- Model of the asset type tag read. -/
def Asset.atype : Asset → String
  | .image _ => "image"
  | .html _ _ _ _ => "html"

/-- Model of the asset src read with an empty-string default. -/
def Asset.srcD : Asset → String
  | .image s => s
  | .html _ _ _ _ => ""

/-- A parsed node (`node_data` dict) built by the extraction functions. -/
structure Layer where
  ltype : String
  asset : Asset
  position : String
  offset : Option (ℚ × ℚ)
  fit : String
  scale : ℚ
  node_id : Option String := none
  node_name : Option String := none
  frame_bbox : Option BBox := none
  expected_aspect : Option ℚ := none
deriving DecidableEq

structure Clip where
  asset : Asset
  start : ℚ
  length : ℚ
  position : String
  fit : String
  scale : ℚ
  offset : Option (ℚ × ℚ)
deriving DecidableEq

structure Track where
  clips : List Clip
deriving DecidableEq

structure MergeVar where
  find : String
  replace : String
deriving DecidableEq

structure OutputSpec where
  format : String
  width : ℚ
  height : ℚ
  fps : Option ℚ
deriving DecidableEq

structure Timeline where
  background : String
  tracks : List Track
deriving DecidableEq

/-- The Shotstack template; `merge` is `none` when the `merge` key is absent. -/
structure Template where
  timeline : Timeline
  output : OutputSpec
  merge : Option (List MergeVar)
deriving DecidableEq

/-- The value of one entry of the result of `convert_all_pages_to_shotstack`. -/
structure PageEntry where
  original_name : String
  template : Template
deriving DecidableEq

/-! ### Arithmetic helpers shared by the parsers -/

/-- Model of Python `int()` on a float: truncation toward zero. -/
def truncQ (q : ℚ) : ℤ := if 0 ≤ q then ⌊q⌋ else ⌈q⌉

def hexDigit (n : ℕ) : Char :=
  if n < 10 then Char.ofNat ('0'.toNat + n) else Char.ofNat ('a'.toNat + (n - 10))

/-- Model of the format spec `02x` for an integer in `[0, 255]`. -/
def toHex2 (n : ℤ) : String :=
  String.mk [hexDigit (n.toNat / 16 % 16), hexDigit (n.toNat % 16)]

/-! ### `_calculate_offset` (src/converter.py lines 194–217) -/

/-- Transcription of `_calculate_offset`: box center, normalization against
the canvas half extents, Y negation, halving, clamping to `[-1, 1]` and
rounding to three decimals. -/
def calculate_offset (bbox : BBox) (cw ch : ℚ) : ℚ × ℚ :=
  let x := bbox.x.getD 0 + bbox.width.getD 0 / 2
  let y := bbox.y.getD 0 + bbox.height.getD 0 / 2
  let x_offset := (x - cw / 2) / (cw / 2)
  let y_offset := (y - ch / 2) / (ch / 2)
  let y_offset := -y_offset
  let x_offset := x_offset / 2
  let y_offset := y_offset / 2
  let x_offset := max (-1) (min 1 x_offset)
  let y_offset := max (-1) (min 1 y_offset)
  (round3 x_offset, round3 y_offset)

/-- The unrounded clamped y offset of `_calculate_offset`, used to speak about
the value just before the final rounding step. -/
def pre_y_offset (bbox : BBox) (ch : ℚ) : ℚ :=
  let y := bbox.y.getD 0 + bbox.height.getD 0 / 2
  max (-1) (min 1 (-((y - ch / 2) / (ch / 2)) / 2))

/-- Checked division: Python `/`, which raises `ZeroDivisionError` on a zero
denominator instead of producing a value. -/
def qdivE (a b : ℚ) : Except String ℚ :=
  if b = 0 then Except.error "ZeroDivisionError" else Except.ok (a / b)

/-- Variant of `_calculate_offset` with the exception semantics of Python
for the two divisions by the canvas half extents. -/
def calculate_offset_checked (bbox : BBox) (cw ch : ℚ) : Except String (ℚ × ℚ) := do
  let x := bbox.x.getD 0 + bbox.width.getD 0 / 2
  let y := bbox.y.getD 0 + bbox.height.getD 0 / 2
  let x_offset ← qdivE (x - cw / 2) (cw / 2)
  let y_offset ← qdivE (y - ch / 2) (ch / 2)
  let y_offset := -y_offset
  let x_offset := x_offset / 2
  let y_offset := y_offset / 2
  let x_offset := max (-1) (min 1 x_offset)
  let y_offset := max (-1) (min 1 y_offset)
  return (round3 x_offset, round3 y_offset)

/-- The composite-frame scale `((fw / cw) + (fh / ch)) / 2`, rounded to three
decimals, with Python's exception semantics for the divisions. -/
def composite_scale_checked (fw fh cw ch : ℚ) : Except String ℚ := do
  let a ← qdivE fw cw
  let b ← qdivE fh ch
  return round3 ((a + b) / 2)

/-! ### Node parsers (`_parse_text_node`, `_parse_image_node`,
`_parse_frame_node`, `parse_node`) -/

/-- Transcription of `_parse_text_node` (lines 109–147).  This function is
reachable only through `parse_node`, which the conversion pipeline never
calls; it is embedded to state what the spec expects of Text nodes. -/
def parse_text_node (n : Node) (cw ch : ℚ) : Layer :=
  let bbox := n.bboxD
  let style := n.style.getD ⟨none, none⟩
  let text_content := n.characters.getD "Text"
  let font_family := style.fontFamily.getD "Arial"
  let font_size := style.fontSize.getD 16
  let color :=
    match n.fills with
    | f :: _ =>
      if f.ftype = "SOLID" then
        let c := f.color.getD ⟨none, none, none⟩
        "#" ++ toHex2 (truncQ (c.r.getD 0 * 255)) ++ toHex2 (truncQ (c.g.getD 0 * 255)) ++
          toHex2 (truncQ (c.b.getD 0 * 255))
      else "#000000"
    | [] => "#000000"
  { ltype := "text",
    asset := Asset.html (truncQ (bbox.width.getD 200)) (truncQ (bbox.height.getD 50))
      ("<p data-html-type=\"text\">" ++ text_content ++ "</p>")
      ("p \x7b color: " ++ color ++ "; font-size: " ++ toString (truncQ font_size) ++
        "px; font-family: \x27" ++ font_family ++ "\x27; text-align: left; \x7d"),
    position := "center",
    offset := some (calculate_offset bbox cw ch),
    fit := "none",
    scale := 1 }

/-- Transcription of `_parse_image_node` (lines 149–164). -/
def parse_image_node (n : Node) (cw ch : ℚ) : Layer :=
  { ltype := "image",
    asset := Asset.image "\x7b\x7b IMAGE_PLACEHOLDER \x7d\x7d",
    position := "center",
    offset := some (calculate_offset n.bboxD cw ch),
    fit := "crop",
    scale := 1 }

/-- Transcription of `_parse_frame_node` (lines 166–192). -/
def parse_frame_node (n : Node) (cw ch : ℚ) : Layer :=
  let bbox := n.bboxD
  let off := calculate_offset bbox cw ch
  let frame_width := bbox.width.getD cw
  let frame_height := bbox.height.getD ch
  let scale := (frame_width / cw + frame_height / ch) / 2
  let node_name := n.name.getD "BACKGROUND"
  let placeholder_name := replaceSpaces (upperStr node_name)
  { ltype := "frame",
    asset := Asset.image ("\x7b\x7b " ++ placeholder_name ++ " \x7d\x7d"),
    position := "center",
    offset := some off,
    fit := "crop",
    scale := round3 scale }

/-- Transcription of `parse_node` (lines 84–107).  Dead code in the conversion
pipeline (`convert_to_shotstack` extracts via `_extract_all_nodes` instead),
embedded because it documents the intended classification of Text nodes. -/
def parse_node (n : Node) (cw ch : ℚ) : Option Layer :=
  if n.ntype = "TEXT" then some (parse_text_node n cw ch)
  else if n.ntype = "RECTANGLE" then
    if n.fills.any (fun f => f.ftype == "IMAGE") then some (parse_image_node n cw ch)
    else if n.fills ≠ [] then some (parse_image_node n cw ch)
    else none
  else if n.ntype = "VECTOR" then some (parse_frame_node n cw ch)
  else if n.ntype = "FRAME" then
    if n.children.isEmpty then some (parse_frame_node n cw ch) else none
  else none

/-! ### `_extract_all_nodes` (lines 266–351), the tree walker -/

/-- The direct children of kind RECTANGLE or VECTOR (`image_children` in the
source). -/
def image_children (n : Node) : List Node :=
  n.children.filter (fun c => c.ntype == "RECTANGLE" || c.ntype == "VECTOR")

/-- The composite layer built for a Frame that has RECTANGLE/VECTOR children
(lines 286–334): the frame's bounding box supplies offset and scale, the first
matching child supplies the image-fetch `node_id`, and the fit mode is
`contain` exactly for small landscape frames. -/
def compositeLayer (n : Node) (cw ch : ℚ) : Layer :=
  let frame_bbox := n.bboxD
  let off := calculate_offset frame_bbox cw ch
  let frame_width := frame_bbox.width.getD cw
  let frame_height := frame_bbox.height.getD ch
  let scale := (frame_width / cw + frame_height / ch) / 2
  let fit_mode :=
    if frame_height * 1.5 < frame_width ∧ max frame_width frame_height < 400
    then "contain" else "crop"
  let image_child_id :=
    match image_children n with
    | c :: _ => c.id
    | [] => none
  let frame_name := n.name.getD "IMAGE"
  let placeholder_name := replaceSpaces (upperStr frame_name)
  { ltype := "image",
    asset := Asset.image ("\x7b\x7b " ++ placeholder_name ++ " \x7d\x7d"),
    position := "center",
    offset := some off,
    fit := fit_mode,
    scale := round3 scale,
    node_id := image_child_id,
    node_name := n.name,
    frame_bbox := some frame_bbox,
    expected_aspect := some (round2 (frame_width / frame_height)) }

mutual

/-- Transcription of `_extract_all_nodes`: with `skip_parent` the node itself
is skipped and only children are walked; a Frame with RECTANGLE/VECTOR
children yields exactly the composite layer and the walk stops; a VECTOR
yields one frame-style layer carrying its own id; any other Frame recurses
into its children; every other node kind yields nothing. -/
def extract_all_nodes (n : Node) (cw ch : ℚ) (skip_parent : Bool) : List Layer :=
  if skip_parent then extract_children n.children cw ch
  else if n.ntype == "FRAME" && !n.children.isEmpty && !(image_children n).isEmpty then
    [compositeLayer n cw ch]
  else if n.ntype == "VECTOR" then
    [{ parse_frame_node n cw ch with node_id := n.id, node_name := n.name }]
  else if n.ntype == "FRAME" then
    extract_children n.children cw ch
  else []
termination_by sizeOf n
decreasing_by
all_goals cases n with
  | mk a b c d e f g h => simp [Node.children]

/-- The child loop of `_extract_all_nodes`. -/
def extract_children (l : List Node) (cw ch : ℚ) : List Layer :=
  match l with
  | [] => []
  | c :: rest => extract_all_nodes c cw ch false ++ extract_children rest cw ch
termination_by sizeOf l
decreasing_by
all_goals simp <;> omega

end

theorem extract_children_nil (cw ch : ℚ) : extract_children [] cw ch = [] := by
  rw [extract_children.eq_def]

theorem extract_children_cons (c : Node) (rest : List Node) (cw ch : ℚ) :
    extract_children (c :: rest) cw ch =
      extract_all_nodes c cw ch false ++ extract_children rest cw ch := by
  rw [extract_children.eq_def]

/-! ### `get_layer_order` and the layer sort (lines 406–424) -/

/-- Transcription of the `get_layer_order` sort key: rank of the lower-cased
`node_name` (defaulting to the empty string) by substring match, first match
wins. -/
def get_layer_order (nd : Layer) : ℕ :=
  let name := lowerStr (nd.node_name.getD "")
  if containsStr name "frame 4" || containsStr name "logo" then 0
  else if containsStr name "frame 1" || containsStr name "background" then 1
  else if containsStr name "frame 2" then 2
  else if containsStr name "frame 3" then 3
  else 10

/-- The comparison used to sort layers: `sorted(all_nodes, key=get_layer_order)`. -/
def layerLe (a b : Layer) : Prop := get_layer_order a ≤ get_layer_order b

instance : DecidableRel layerLe := fun _ _ => Nat.decLe _ _

instance : IsTotal Layer layerLe := ⟨fun _ _ => Nat.le_total _ _⟩

instance : IsTrans Layer layerLe := ⟨fun _ _ _ => Nat.le_trans⟩

/-- Model of Python's stable `sorted` with key `get_layer_order`. -/
def sortLayers (l : List Layer) : List Layer := List.insertionSort layerLe l

/-! ### The per-layer loop of `convert_to_shotstack` (lines 430–466) -/

/-- Model of `node_id in figma_images` plus `figma_images[node_id]` on the
resolved-URL mapping. -/
def figmaLookup (imgs : List (String × String)) (k : String) : Option String :=
  (imgs.find? (fun p => p.1 == k)).map (fun p => p.2)

/-- The asset placed in a clip: the layer's asset, with `src` overwritten by
the resolved URL when `populate_images` is set, the layer has a truthy
`node_id`, that id is in the map, and the asset is an image asset. -/
def resolveAsset (populate : Bool) (imgs : List (String × String)) (nd : Layer) : Asset :=
  match nd.node_id with
  | some i =>
    if populate && !(i == "") then
      match figmaLookup imgs i with
      | some url =>
        match nd.asset with
        | Asset.image _ => Asset.image url
        | a => a
      | none => nd.asset
    else nd.asset
  | none => nd.asset

/-- The clip built for one sorted layer. -/
def mkClip (dur : ℚ) (populate : Bool) (imgs : List (String × String)) (nd : Layer) : Clip :=
  { asset := resolveAsset populate imgs nd,
    start := 0,
    length := dur,
    position := nd.position,
    fit := nd.fit,
    scale := nd.scale,
    offset := nd.offset }

/-- The merge-variable entry contributed by one sorted layer: scan the (post
overwrite) asset `src` for the placeholder pattern and, on a match, emit
the entry with that find name and an empty replace string. -/
def mergeContribution (populate : Bool) (imgs : List (String × String)) (nd : Layer) :
    Option MergeVar :=
  (findMergeVar (Asset.srcD (resolveAsset populate imgs nd))).map
    (fun nm => { find := nm, replace := "" })

/-! ### `convert_to_shotstack` (lines 353–490) -/

/-- Transcription of `convert_to_shotstack`, parameterised by the already
fetched page node and resolved-URL mapping (the network client is an external
collaborator).  Canvas dimensions come from the first Frame child of the page
when present, else the requested output dimensions; the walk skips the main
frame itself; image-only mode forces the clip duration to `1.0` and omits the
`fps` field; the `merge` key is attached only when non-empty. -/
def convert_to_shotstack (page : Node) (output_width output_height : ℚ) (duration : ℚ)
    (populate_images : Bool) (figma_images : List (String × String))
    (image_only : Bool) : Template :=
  let main_frame := page.children.find? (fun c => c.ntype == "FRAME")
  let canvas_width :=
    match main_frame with
    | some f => f.bboxD.width.getD output_width
    | none => output_width
  let canvas_height :=
    match main_frame with
    | some f => f.bboxD.height.getD output_height
    | none => output_height
  let all_nodes :=
    match main_frame with
    | some f => extract_all_nodes f canvas_width canvas_height true
    | none => extract_children page.children canvas_width canvas_height
  let dur := if image_only then 1 else duration
  let all_nodes_sorted := sortLayers all_nodes
  let tracks := all_nodes_sorted.map
    (fun nd => Track.mk [mkClip dur populate_images figma_images nd])
  let merge_variables := all_nodes_sorted.filterMap
    (mergeContribution populate_images figma_images)
  { timeline := { background := "#ffffff", tracks := tracks },
    output := { format := "png", width := output_width, height := output_height,
                fps := if image_only then none else some 25 },
    merge := if merge_variables.isEmpty then none else some merge_variables }

/-! ### `convert_all_pages_to_shotstack` (lines 492–528) -/

/-- Model of `extract_page`: the first page whose name equals the requested
name, or the first page when no name is given. -/
def extract_page (pages : List Node) (page_name : Option String) : Option Node :=
  match page_name with
  | none => pages.head?
  | some nm => pages.find? (fun p => p.name.getD "" == nm)

/-- Model of Python dict assignment `d[k] = v`: replace the value in place if
the key exists, else append the binding. -/
def upsert {α : Type} (l : List (String × α)) (k : String) (v : α) : List (String × α) :=
  match l with
  | [] => [(k, v)]
  | (k', v') :: rest => if k' == k then (k, v) :: rest else (k', v') :: upsert rest k v

/-- Model of dict lookup `d.get(k)`. -/
def lookupKey {α : Type} (l : List (String × α)) (k : String) : Option α :=
  (l.find? (fun p => p.1 == k)).map (fun p => p.2)

/-- Transcription of `convert_all_pages_to_shotstack`: convert every page
(re-extracting it by name, which finds the first page with that name) and
store the entry under the sanitized page name. -/
def convert_all_pages_to_shotstack (pages : List Node) (output_width output_height : ℚ)
    (duration : ℚ) (populate_images : Bool) (figma_images : List (String × String))
    (image_only : Bool) : List (String × PageEntry) :=
  pages.foldl
    (fun acc p =>
      let page_name := p.name.getD ""
      let page := (extract_page pages (some page_name)).getD p
      let template := convert_to_shotstack page output_width output_height duration
        populate_images figma_images image_only
      upsert acc (sanitizeName page_name) { original_name := page_name, template := template })
    []

/-! ### Specification-side definitions -/

/-- The offset pipeline exactly as the specification words it: box center with
width/height defaulting to 0, per-axis normalization `(center - extent/2) /
(extent/2)`, y negation, halving, clamping to `[-1, 1]`, rounding to three
decimals.  Stated independently of `calculate_offset` so the two can be
compared. -/
def spec_offset (b : BBox) (cw ch : ℚ) : ℚ × ℚ :=
  let centerX := b.x.getD 0 + b.width.getD 0 / 2
  let centerY := b.y.getD 0 + b.height.getD 0 / 2
  let nX := (centerX - cw / 2) / (cw / 2)
  let nY := (centerY - ch / 2) / (ch / 2)
  let negY := -nY
  let halfX := nX / 2
  let halfY := negY / 2
  let clampX := max (-1) (min 1 halfX)
  let clampY := max (-1) (min 1 halfY)
  (round3 clampX, round3 clampY)

/-! ### Supporting lemmas -/

theorem clamp_mem_Icc (x : ℚ) : -1 ≤ max (-1) (min 1 x) ∧ max (-1) (min 1 x) ≤ 1 :=
  ⟨le_max_left _ _, max_le (by norm_num) (min_le_left _ _)⟩

theorem round3_clamp_mem_Icc (x : ℚ) :
    -1 ≤ round3 (max (-1) (min 1 x)) ∧ round3 (max (-1) (min 1 x)) ≤ 1 :=
  ⟨neg_one_le_round3 (clamp_mem_Icc x).1, round3_le_one (clamp_mem_Icc x).2⟩

theorem snd_calculate_offset (b : BBox) (cw ch : ℚ) :
    (calculate_offset b cw ch).2 = round3 (pre_y_offset b ch) := rfl

/-! ### Claim C4 -/

/-- C4: for every bounding box and every canvas with positive dimensions,
`_calculate_offset` returns exactly the pair obtained by the center /
normalize / negate-y / halve / clamp / round-to-3-decimals pipeline; both
returned coordinates lie in `[-1, 1]`; and a box whose center coincides with
the canvas center yields `(0, 0)`. -/
theorem claim_C4 (b : BBox) (cw ch : ℚ) (_hcw : 0 < cw) (_hch : 0 < ch) :
    calculate_offset b cw ch = spec_offset b cw ch ∧
    (-1 ≤ (calculate_offset b cw ch).1 ∧ (calculate_offset b cw ch).1 ≤ 1) ∧
    (-1 ≤ (calculate_offset b cw ch).2 ∧ (calculate_offset b cw ch).2 ≤ 1) ∧
    ((b.x.getD 0 + b.width.getD 0 / 2 = cw / 2 ∧
      b.y.getD 0 + b.height.getD 0 / 2 = ch / 2) →
      calculate_offset b cw ch = (0, 0)) := by
  refine ⟨rfl, ?_, ?_, ?_⟩
  · exact round3_clamp_mem_Icc _
  · exact round3_clamp_mem_Icc _
  · rintro ⟨hx, hy⟩
    unfold calculate_offset
    rw [hx, hy]
    simp
    all_goals exact round3_zero

/-- Witness for C4 at a concrete centered box on a 1200×1200 canvas. -/
theorem claim_C4_witness :
    calculate_offset ⟨some 500, some 500, some 200, some 200⟩ 1200 1200 = (0, 0) :=
  (claim_C4 ⟨some 500, some 500, some 200, some 200⟩ 1200 1200 (by norm_num)
      (by norm_num)).2.2.2 (by norm_num)

/-! ### Claim C8 -/

/-- C8: with a zero canvas width or height the offset computation and the
composite-scale computation stop with an error that propagates to the caller
(Python's `ZeroDivisionError`), producing no value; with non-zero canvas
dimensions both are well defined and raise nothing. -/
theorem claim_C8 (b : BBox) (cw ch fw fh : ℚ) :
    ((cw = 0 ∨ ch = 0) → ∃ e, calculate_offset_checked b cw ch = Except.error e) ∧
    (cw ≠ 0 → ch ≠ 0 →
      calculate_offset_checked b cw ch = Except.ok (calculate_offset b cw ch)) ∧
    ((cw = 0 ∨ ch = 0) → ∃ e, composite_scale_checked fw fh cw ch = Except.error e) ∧
    (cw ≠ 0 → ch ≠ 0 →
      composite_scale_checked fw fh cw ch = Except.ok (round3 ((fw / cw + fh / ch) / 2))) := by
  have hhalf : ∀ q : ℚ, q / 2 = 0 ↔ q = 0 := by intro q; constructor <;> intro h <;> linarith
  refine ⟨?_, ?_, ?_, ?_⟩
  · rintro (h | h) <;>
      · refine ⟨"ZeroDivisionError", ?_⟩
        subst h
        simp [calculate_offset_checked, qdivE]
        try split <;> rfl
  · intro hcw hch
    simp [calculate_offset_checked, qdivE, (hhalf cw).not.mpr hcw, (hhalf ch).not.mpr hch,
      calculate_offset]
    rfl
  · rintro (h | h) <;>
      · refine ⟨"ZeroDivisionError", ?_⟩
        subst h
        simp [composite_scale_checked, qdivE]
        try split <;> rfl
  · intro hcw hch
    simp [composite_scale_checked, qdivE, hcw, hch]
    rfl

/-- Witness for C8: on a 0-width canvas the checked offset errors, and on a
nonzero canvas it returns the value of `_calculate_offset`. -/
theorem claim_C8_witness :
    (∃ e, calculate_offset_checked ⟨some 0, some 0, some 10, some 10⟩ 0 1200 =
      Except.error e) ∧
    calculate_offset_checked ⟨some 0, some 0, some 10, some 10⟩ 1200 1200 =
      Except.ok (calculate_offset ⟨some 0, some 0, some 10, some 10⟩ 1200 1200) :=
  ⟨(claim_C8 ⟨some 0, some 0, some 10, some 10⟩ 0 1200 0 0).1 (Or.inl rfl),
   (claim_C8 ⟨some 0, some 0, some 10, some 10⟩ 1200 1200 0 0).2.1 (by norm_num) (by norm_num)⟩

/-! ### Claim C9 -/

/-- C9 as stated is false: on a 10000×10000 canvas, moving a degenerate box
from y = 0 to y = 1 strictly increases the source y, yet the rounded y offset
is unchanged (both round to 1/2) and is not clamped at -1: the 3-decimal
rounding step erases sub-thousandth movements. -/
theorem claim_C9_counterexample :
    ((0 : ℚ) < 1) ∧
    (calculate_offset ⟨some 0, some 1, some 0, some 0⟩ 10000 10000).2 =
      (calculate_offset ⟨some 0, some 0, some 0, some 0⟩ 10000 10000).2 ∧
    (calculate_offset ⟨some 0, some 1, some 0, some 0⟩ 10000 10000).2 ≠ -1 := by
  have h1 : (calculate_offset ⟨some 0, some 1, some 0, some 0⟩ 10000 10000).2 = 1/2 := by
    simp only [calculate_offset, Option.getD_some]
    norm_num
    unfold round3 roundHalfEven
    norm_num
  have h0 : (calculate_offset ⟨some 0, some 0, some 0, some 0⟩ 10000 10000).2 = 1/2 := by
    simp only [calculate_offset, Option.getD_some]
    norm_num
    unfold round3 roundHalfEven
    norm_num
  refine ⟨by norm_num, by rw [h1, h0], by rw [h1]; norm_num⟩

/-- The clamped, unrounded y offset is weakly antitone in the box center and
strictly antitone away from the clamp bounds. -/
theorem clampedY_strict_anti (ch u v : ℚ) (hch : 0 < ch) (huv : u < v) :
    max (-1) (min 1 (-((v - ch / 2) / (ch / 2)) / 2)) ≤
      max (-1) (min 1 (-((u - ch / 2) / (ch / 2)) / 2)) ∧
    (max (-1) (min 1 (-((v - ch / 2) / (ch / 2)) / 2)) <
        max (-1) (min 1 (-((u - ch / 2) / (ch / 2)) / 2)) ∨
      max (-1) (min 1 (-((v - ch / 2) / (ch / 2)) / 2)) = -1 ∨
      max (-1) (min 1 (-((u - ch / 2) / (ch / 2)) / 2)) = 1) := by
  have hhalf : 0 < ch / 2 := by linarith
  set ru := -((u - ch / 2) / (ch / 2)) / 2 with hru
  set rv := -((v - ch / 2) / (ch / 2)) / 2 with hrv
  have hraw : rv < ru := by
    have hlt : (u - ch / 2) / (ch / 2) < (v - ch / 2) / (ch / 2) :=
      (div_lt_div_iff_of_pos_right hhalf).mpr (by linarith)
    rw [hru, hrv]
    linarith
  have hclamp : max (-1) (min 1 rv) ≤ max (-1) (min 1 ru) :=
    max_le_max le_rfl (min_le_min le_rfl hraw.le)
  refine ⟨hclamp, ?_⟩
  rcases le_or_lt 1 ru with h1 | h1
  · right; right
    rw [min_eq_left h1, max_eq_right (by norm_num : (-1 : ℚ) ≤ 1)]
  · rcases le_or_lt rv (-1) with h2 | h2
    · right; left
      rw [min_eq_right (h2.trans (by norm_num)), max_eq_left h2]
    · left
      rw [min_eq_right h1.le, min_eq_right (hraw.trans h1).le,
        max_eq_right h2.le, max_eq_right (h2.trans hraw).le]
      exact hraw

/-- C9 amended: with a positive canvas height, increasing the source y weakly
decreases the rounded y offset, and the value before the final rounding step
strictly decreases except when it has saturated at a clamp bound (-1 below,
or +1 when the box center is far above the canvas). -/
theorem claim_C9 (b : BBox) (cw ch y1 y2 : ℚ) (hch : 0 < ch) (hy : y1 < y2) :
    (calculate_offset { b with y := some y2 } cw ch).2 ≤
      (calculate_offset { b with y := some y1 } cw ch).2 ∧
    (pre_y_offset { b with y := some y2 } ch < pre_y_offset { b with y := some y1 } ch ∨
      pre_y_offset { b with y := some y2 } ch = -1 ∨
      pre_y_offset { b with y := some y1 } ch = 1) := by
  have hp1 : pre_y_offset { b with y := some y1 } ch =
      max (-1) (min 1 (-((y1 + b.height.getD 0 / 2 - ch / 2) / (ch / 2)) / 2)) := by
    simp [pre_y_offset]
  have hp2 : pre_y_offset { b with y := some y2 } ch =
      max (-1) (min 1 (-((y2 + b.height.getD 0 / 2 - ch / 2) / (ch / 2)) / 2)) := by
    simp [pre_y_offset]
  have hmain := clampedY_strict_anti ch (y1 + b.height.getD 0 / 2)
    (y2 + b.height.getD 0 / 2) hch (by linarith)
  constructor
  · rw [snd_calculate_offset, snd_calculate_offset, hp1, hp2]
    exact round3_mono hmain.1
  · rw [hp1, hp2]
    exact hmain.2

/-- Witness for C9 amended: a concrete box moved down by 600 pixels on a
1200-high canvas. -/
theorem claim_C9_witness :
    (calculate_offset ⟨some 0, some 600, some 0, some 0⟩ 1200 1200).2 ≤
      (calculate_offset ⟨some 0, some 0, some 0, some 0⟩ 1200 1200).2 ∧
    (pre_y_offset ⟨some 0, some 600, some 0, some 0⟩ 1200 <
        pre_y_offset ⟨some 0, some 0, some 0, some 0⟩ 1200 ∨
      pre_y_offset ⟨some 0, some 600, some 0, some 0⟩ 1200 = -1 ∨
      pre_y_offset ⟨some 0, some 0, some 0, some 0⟩ 1200 = 1) :=
  claim_C9 ⟨some 0, some 0, some 0, some 0⟩ 1200 1200 0 600 (by norm_num) (by norm_num)

/-! ### Claims C1–C3: the tree walker -/

/-- On a Frame node with children, at least one of which is a Rectangle or
Vector, the walk emits exactly the composite layer and stops. -/
theorem extract_composite (n : Node) (cw ch : ℚ) (c : Node) (rest : List Node)
    (ht : n.ntype = "FRAME") (hne : n.children ≠ [])
    (hic : image_children n = c :: rest) :
    extract_all_nodes n cw ch false = [compositeLayer n cw ch] := by
  obtain ⟨hd, tl, hchl⟩ := List.exists_cons_of_ne_nil hne
  rw [extract_all_nodes]
  simp [ht, hchl, hic]

/-- C1: for every Frame node with children of which at least one direct child
is a Rectangle or Vector, the walk emits exactly one composite layer; its
offset comes from the frame's bounding box, its scale is the arithmetic mean
of frameWidth/canvasWidth and frameHeight/canvasHeight rounded to three
decimals, its fetch-target `node_id` is the id of the first matching child
(not the frame's id), and no layer is produced from any descendant. -/
theorem claim_C1 (n : Node) (cw ch : ℚ) (c : Node) (rest : List Node)
    (ht : n.ntype = "FRAME") (hne : n.children ≠ [])
    (hic : image_children n = c :: rest) :
    extract_all_nodes n cw ch false = [compositeLayer n cw ch] ∧
    (compositeLayer n cw ch).offset = some (calculate_offset n.bboxD cw ch) ∧
    (compositeLayer n cw ch).scale =
      round3 ((n.bboxD.width.getD cw / cw + n.bboxD.height.getD ch / ch) / 2) ∧
    (compositeLayer n cw ch).node_id = c.id ∧
    (c.id ≠ n.id → (compositeLayer n cw ch).node_id ≠ n.id) := by
  refine ⟨extract_composite n cw ch c rest ht hne hic, rfl, rfl, ?_, ?_⟩
  · simp [compositeLayer, hic]
  · intro hid
    simp [compositeLayer, hic]
    exact hid

/-- A concrete Rectangle child used by the C1 witness. -/
def c1Rect : Node := Node.mk (some "2:1") "RECTANGLE" (some "img") none [] none none []

/-- A concrete Frame with a Rectangle child used by the C1 witness. -/
def c1Frame : Node :=
  Node.mk (some "1:0") "FRAME" (some "Frame 2 Hero")
    (some ⟨some 0, some 0, some 600, some 600⟩) [] none none [c1Rect]

/-- Witness for C1: a concrete Frame with one Rectangle child on a 1200×1200
canvas emits exactly the composite layer, whose fetch target is the child's
id, not the frame's. -/
theorem claim_C1_witness :
    extract_all_nodes c1Frame 1200 1200 false = [compositeLayer c1Frame 1200 1200] ∧
    (compositeLayer c1Frame 1200 1200).node_id = some "2:1" ∧
    (compositeLayer c1Frame 1200 1200).node_id ≠ c1Frame.id :=
  ⟨(claim_C1 c1Frame 1200 1200 c1Rect [] rfl (List.cons_ne_nil _ _) rfl).1,
   (claim_C1 c1Frame 1200 1200 c1Rect [] rfl (List.cons_ne_nil _ _) rfl).2.2.2.1,
   (claim_C1 c1Frame 1200 1200 c1Rect [] rfl (List.cons_ne_nil _ _) rfl).2.2.2.2
     (by simp [c1Rect, c1Frame, Node.id])⟩

/-- C2 is about a code bug: the tree walker drops every Text node (it emits no
layer and `_parse_text_node` is unreachable from the conversion pipeline),
although the dead classifier `parse_node` would classify the same node as a
text layer. -/
theorem claim_C2 (n : Node) (cw ch : ℚ) (ht : n.ntype = "TEXT") :
    extract_all_nodes n cw ch false = [] ∧
    parse_node n cw ch = some (parse_text_node n cw ch) ∧
    (parse_text_node n cw ch).ltype = "text" := by
  refine ⟨?_, ?_, rfl⟩
  · rw [extract_all_nodes]
    simp [ht]
  · simp [parse_node, ht]

/-- A concrete Text node used by the C2 witness. -/
def c2Text : Node :=
  Node.mk (some "5:1") "TEXT" (some "Headline") none [] none (some "Hello") []

/-- Witness for C2: a concrete Text node is dropped by the walker even though
the classifier would turn it into a text layer. -/
theorem claim_C2_witness :
    extract_all_nodes c2Text 1200 1200 false = [] ∧
    parse_node c2Text 1200 1200 = some (parse_text_node c2Text 1200 1200) :=
  ⟨(claim_C2 c2Text 1200 1200 rfl).1, (claim_C2 c2Text 1200 1200 rfl).2.1⟩

/-- C3: the composite layer's fit mode is `contain` exactly when the frame is
a small landscape (width strictly greater than 1.5 times height and larger
dimension under 400), and `crop` in every other case. -/
theorem claim_C3 (n : Node) (cw ch : ℚ) (c : Node) (rest : List Node)
    (ht : n.ntype = "FRAME") (hne : n.children ≠ [])
    (hic : image_children n = c :: rest) :
    extract_all_nodes n cw ch false = [compositeLayer n cw ch] ∧
    ((compositeLayer n cw ch).fit = "contain" ↔
      (n.bboxD.height.getD ch * 1.5 < n.bboxD.width.getD cw ∧
        max (n.bboxD.width.getD cw) (n.bboxD.height.getD ch) < 400)) ∧
    ((compositeLayer n cw ch).fit = "crop" ↔
      ¬(n.bboxD.height.getD ch * 1.5 < n.bboxD.width.getD cw ∧
        max (n.bboxD.width.getD cw) (n.bboxD.height.getD ch) < 400)) := by
  have hfit : (compositeLayer n cw ch).fit =
      (if n.bboxD.height.getD ch * 1.5 < n.bboxD.width.getD cw ∧
          max (n.bboxD.width.getD cw) (n.bboxD.height.getD ch) < 400
       then "contain" else "crop") := rfl
  refine ⟨extract_composite n cw ch c rest ht hne hic, ?_, ?_⟩ <;> rw [hfit]
  · split_ifs with hcond
    · exact iff_of_true rfl hcond
    · exact iff_of_false (by decide) hcond
  · split_ifs with hcond
    · exact iff_of_false (by decide) (not_not_intro hcond)
    · exact iff_of_true rfl hcond

/-- A concrete Vector child used by the C3 witness. -/
def c3LogoVec : Node := Node.mk (some "4:1") "VECTOR" (some "logo vec") none [] none none []

/-- A concrete 100×50 logo Frame used by the C3 witness. -/
def c3LogoFrame : Node :=
  Node.mk (some "4:0") "FRAME" (some "Frame 4 Logo")
    (some ⟨some 0, some 0, some 100, some 50⟩) [] none none [c3LogoVec]

/-- A concrete Rectangle child used by the C3 witness. -/
def c3HeroRect : Node := Node.mk (some "3:1") "RECTANGLE" (some "img") none [] none none []

/-- A concrete 600×600 hero Frame used by the C3 witness. -/
def c3HeroFrame : Node :=
  Node.mk (some "3:0") "FRAME" (some "Frame 2 Hero")
    (some ⟨some 0, some 0, some 600, some 600⟩) [] none none [c3HeroRect]

/-- Witness for C3: a 100×50 "Frame 4 Logo" gets `fit = contain` while a
600×600 "Frame 2 Hero" gets `fit = crop` (both on a 1200×1200 canvas). -/
theorem claim_C3_witness :
    (compositeLayer c3LogoFrame 1200 1200).fit = "contain" ∧
    (compositeLayer c3HeroFrame 1200 1200).fit = "crop" :=
  ⟨(claim_C3 c3LogoFrame 1200 1200 c3LogoVec [] rfl (List.cons_ne_nil _ _) rfl).2.1.mpr
      (by refine ⟨?_, ?_⟩ <;> simp [c3LogoFrame, Node.bboxD, Node.bbox] <;> norm_num),
   (claim_C3 c3HeroFrame 1200 1200 c3HeroRect [] rfl (List.cons_ne_nil _ _) rfl).2.2.mpr
      (by rintro ⟨habs, _⟩; simp [c3HeroFrame, Node.bboxD, Node.bbox] at habs; norm_num at habs)⟩

/-! ### Claim C5: the layer ordering -/

/-- Inserting a layer into a list keeps the per-rank filtrations intact:
every element skipped by `orderedInsert` has a strictly smaller rank than the
inserted one, hence a different rank. -/
theorem filter_orderedInsert_rank (a : Layer) (l : List Layer) (k : ℕ) :
    (List.orderedInsert layerLe a l).filter (fun nd => get_layer_order nd == k) =
      if get_layer_order a = k
      then a :: l.filter (fun nd => get_layer_order nd == k)
      else l.filter (fun nd => get_layer_order nd == k) := by
  induction l with
  | nil =>
    by_cases hak : get_layer_order a = k <;> simp [List.orderedInsert, hak]
  | cons b bs ih =>
    rw [List.orderedInsert]
    by_cases hle : layerLe a b
    · rw [if_pos hle]
      by_cases hak : get_layer_order a = k <;> simp [List.filter_cons, hak]
    · rw [if_neg hle]
      have hnot : ¬ get_layer_order a ≤ get_layer_order b := hle
      have hba : get_layer_order b < get_layer_order a := by omega
      by_cases hak : get_layer_order a = k
      · have hbk : ¬ get_layer_order b = k := by omega
        simp [List.filter_cons, hbk, ih, hak]
      · by_cases hbk : get_layer_order b = k <;>
          simp [List.filter_cons, hbk, ih, hak]

/-- The insertion sort of the layer order is stable: filtering any single
rank out of the sorted list returns exactly the same subsequence as filtering
it out of the input list. -/
theorem filter_sortLayers (l : List Layer) (k : ℕ) :
    (sortLayers l).filter (fun nd => get_layer_order nd == k) =
      l.filter (fun nd => get_layer_order nd == k) := by
  unfold sortLayers
  induction l with
  | nil => rfl
  | cons a as ih =>
    rw [List.insertionSort, filter_orderedInsert_rank]
    by_cases hak : get_layer_order a = k <;> simp [List.filter_cons, hak, ih]

/-- C5: the layer ordering is a stable total-order sort by the rank of the
lower-cased source name: the output is a permutation of the walked list,
weakly sorted by rank, preserving the original order within each rank class;
the rank is 0 for names containing "frame 4" or "logo", 1 for "frame 1" or
"background", 2 for "frame 2", 3 for "frame 3" and 10 otherwise, earlier
rules taking priority; and the output track list is built in exactly this
sorted order. -/
theorem claim_C5 :
    (∀ l : List Layer, (sortLayers l).Perm l) ∧
    (∀ l : List Layer, (sortLayers l).Sorted layerLe) ∧
    (∀ (l : List Layer) (k : ℕ),
      (sortLayers l).filter (fun nd => get_layer_order nd == k) =
        l.filter (fun nd => get_layer_order nd == k)) ∧
    (∀ nd : Layer,
      ((containsStr (lowerStr (nd.node_name.getD "")) "frame 4" = true ∨
        containsStr (lowerStr (nd.node_name.getD "")) "logo" = true) →
        get_layer_order nd = 0) ∧
      (containsStr (lowerStr (nd.node_name.getD "")) "frame 4" = false →
        containsStr (lowerStr (nd.node_name.getD "")) "logo" = false →
        (containsStr (lowerStr (nd.node_name.getD "")) "frame 1" = true ∨
         containsStr (lowerStr (nd.node_name.getD "")) "background" = true) →
        get_layer_order nd = 1) ∧
      (containsStr (lowerStr (nd.node_name.getD "")) "frame 4" = false →
        containsStr (lowerStr (nd.node_name.getD "")) "logo" = false →
        containsStr (lowerStr (nd.node_name.getD "")) "frame 1" = false →
        containsStr (lowerStr (nd.node_name.getD "")) "background" = false →
        containsStr (lowerStr (nd.node_name.getD "")) "frame 2" = true →
        get_layer_order nd = 2) ∧
      (containsStr (lowerStr (nd.node_name.getD "")) "frame 4" = false →
        containsStr (lowerStr (nd.node_name.getD "")) "logo" = false →
        containsStr (lowerStr (nd.node_name.getD "")) "frame 1" = false →
        containsStr (lowerStr (nd.node_name.getD "")) "background" = false →
        containsStr (lowerStr (nd.node_name.getD "")) "frame 2" = false →
        containsStr (lowerStr (nd.node_name.getD "")) "frame 3" = true →
        get_layer_order nd = 3) ∧
      (containsStr (lowerStr (nd.node_name.getD "")) "frame 4" = false →
        containsStr (lowerStr (nd.node_name.getD "")) "logo" = false →
        containsStr (lowerStr (nd.node_name.getD "")) "frame 1" = false →
        containsStr (lowerStr (nd.node_name.getD "")) "background" = false →
        containsStr (lowerStr (nd.node_name.getD "")) "frame 2" = false →
        containsStr (lowerStr (nd.node_name.getD "")) "frame 3" = false →
        get_layer_order nd = 10)) ∧
    (∀ (page : Node) (ow oh dur : ℚ) (pop : Bool) (imgs : List (String × String)) (io : Bool),
      ∃ layers : List Layer,
        (convert_to_shotstack page ow oh dur pop imgs io).timeline.tracks =
          (sortLayers layers).map
            (fun nd => Track.mk [mkClip (if io then 1 else dur) pop imgs nd])) := by
  refine ⟨fun l => List.perm_insertionSort layerLe l,
    fun l => List.sorted_insertionSort layerLe l,
    filter_sortLayers, ?_, ?_⟩
  · intro nd
    refine ⟨?_, ?_, ?_, ?_, ?_⟩
    · rintro (h | h) <;> simp [get_layer_order, h]
    · rintro h4 hl (h | h) <;> simp [get_layer_order, h4, hl, h]
    · intro h4 hl h1 hb h2
      simp [get_layer_order, h4, hl, h1, hb, h2]
    · intro h4 hl h1 hb h2 h3
      simp [get_layer_order, h4, hl, h1, hb, h2, h3]
    · intro h4 hl h1 hb h2 h3
      simp [get_layer_order, h4, hl, h1, hb, h2, h3]
  · intro page ow oh dur pop imgs io
    exact ⟨_, rfl⟩

/-- A concrete layer named by its source node, used by the C5 witness. -/
def namedLayer (nm : String) : Layer :=
  { ltype := "image", asset := Asset.image "", position := "center", offset := none,
    fit := "crop", scale := 1, node_id := none, node_name := some nm }

/-- Witness for C5 at concrete layer names: "Logo Badge" ranks 0,
"Background Pattern" ranks 1, "Frame 2 Hero" ranks 2, "Frame 3 Detail" ranks
3 and "Sticker" ranks 10. -/
theorem claim_C5_witness :
    get_layer_order (namedLayer "Logo Badge") = 0 ∧
    get_layer_order (namedLayer "Background Pattern") = 1 ∧
    get_layer_order (namedLayer "Frame 2 Hero") = 2 ∧
    get_layer_order (namedLayer "Frame 3 Detail") = 3 ∧
    get_layer_order (namedLayer "Sticker") = 10 :=
  ⟨(claim_C5.2.2.2.1 (namedLayer "Logo Badge")).1 (Or.inr (by decide)),
   (claim_C5.2.2.2.1 (namedLayer "Background Pattern")).2.1 (by decide) (by decide)
     (Or.inr (by decide)),
   (claim_C5.2.2.2.1 (namedLayer "Frame 2 Hero")).2.2.1 (by decide) (by decide) (by decide)
     (by decide) (by decide),
   (claim_C5.2.2.2.1 (namedLayer "Frame 3 Detail")).2.2.2.1 (by decide) (by decide) (by decide)
     (by decide) (by decide) (by decide),
   (claim_C5.2.2.2.1 (namedLayer "Sticker")).2.2.2.2 (by decide) (by decide) (by decide)
     (by decide) (by decide) (by decide)⟩

/-! ### Claim C7: still-image mode -/

/-- C7: with `image_only = true` the output block carries no fps field and
every clip of every track has length 1.0 whatever duration was requested;
with `image_only = false` the output block carries `fps = 25` and every clip's
length is the requested duration. -/
theorem claim_C7 (page : Node) (ow oh dur : ℚ) (pop : Bool)
    (imgs : List (String × String)) :
    ((convert_to_shotstack page ow oh dur pop imgs true).output.fps = none ∧
      (convert_to_shotstack page ow oh dur pop imgs true).timeline.tracks.all
        (fun tr => tr.clips.all (fun cl => cl.length == 1)) = true) ∧
    ((convert_to_shotstack page ow oh dur pop imgs false).output.fps = some 25 ∧
      (convert_to_shotstack page ow oh dur pop imgs false).timeline.tracks.all
        (fun tr => tr.clips.all (fun cl => cl.length == dur)) = true) := by
  refine ⟨⟨rfl, ?_⟩, ⟨rfl, ?_⟩⟩ <;>
    simp [convert_to_shotstack, List.all_eq_true, mkClip]

/-! ### Claim C6: merge variables -/

/-- Mapping with `filterMap` keeps one output per contributing element: the length of the
merge-variable list equals the number of layers whose scan succeeds, with no
de-duplication. -/
theorem length_filterMap_eq_countP {α β : Type} (f : α → Option β) (l : List α) :
    (l.filterMap f).length = l.countP (fun a => (f a).isSome) := by
  induction l with
  | nil => rfl
  | cons a as ih =>
    rw [List.filterMap_cons]
    cases hfa : f a <;> simp [List.countP_cons, hfa, ih]

/-- C6 amended: a layer whose (unresolved) asset src matches the placeholder
syntax contributes exactly one entry holding that name and an empty
replacement; one
entry per layer even when names repeat (the merge list is the `filterMap` of
the per-layer scan over the sorted layers, its length counting every
contributing layer); and when the resolved-URL map is in use and contains the
layer's fetch-target id, the asset src is overwritten with the resolved URL
and no merge-variable entry is emitted for that layer provided the resolved
URL does not itself contain placeholder syntax. -/
theorem claim_C6 (imgs : List (String × String)) :
    (∀ (pop : Bool) (nd : Layer) (nm : String),
      resolveAsset pop imgs nd = nd.asset →
      findMergeVar nd.asset.srcD = some nm →
      mergeContribution pop imgs nd = some { find := nm, replace := "" }) ∧
    (∀ (nd : Layer) (i url s : String),
      nd.node_id = some i → i ≠ "" → nd.asset = Asset.image s →
      figmaLookup imgs i = some url →
      resolveAsset true imgs nd = Asset.image url ∧
      (findMergeVar url = none → mergeContribution true imgs nd = none)) ∧
    (∀ (pop : Bool) (l : List Layer),
      (l.filterMap (mergeContribution pop imgs)).length =
        l.countP (fun nd => (mergeContribution pop imgs nd).isSome)) ∧
    (∀ (page : Node) (ow oh dur : ℚ) (pop io : Bool),
      ∃ sorted : List Layer,
        (convert_to_shotstack page ow oh dur pop imgs io).merge =
          (if (sorted.filterMap (mergeContribution pop imgs)).isEmpty then none
           else some (sorted.filterMap (mergeContribution pop imgs))) ∧
        (convert_to_shotstack page ow oh dur pop imgs io).timeline.tracks =
          sorted.map (fun nd => Track.mk [mkClip (if io then 1 else dur) pop imgs nd])) := by
  refine ⟨?_, ?_, fun pop l => length_filterMap_eq_countP _ l, ?_⟩
  · intro pop nd nm hres hfind
    unfold mergeContribution
    rw [hres, hfind]
    rfl
  · intro nd i url s hid hi hasset hurl
    have hres : resolveAsset true imgs nd = Asset.image url := by
      unfold resolveAsset
      rw [hid]
      simp [hi, hurl, hasset]
    refine ⟨hres, ?_⟩
    intro hnone
    unfold mergeContribution
    rw [hres]
    show (findMergeVar url).map _ = none
    rw [hnone]
    rfl
  · intro page ow oh dur pop io
    exact ⟨_, rfl, rfl⟩

/-- A concrete layer carrying a placeholder asset, used by the C6 witness. -/
def c6wLayer : Layer :=
  { ltype := "frame", asset := Asset.image "\x7b\x7b BACKGROUND \x7d\x7d",
    position := "center", offset := none, fit := "crop", scale := 1,
    node_id := some "7", node_name := some "Background" }

/-- Witness for C6: with no resolved images the placeholder layer contributes
exactly one BACKGROUND merge entry; with a resolved plain URL for its
fetch-target id the asset is overwritten and the layer contributes no merge
variable. -/
theorem claim_C6_witness :
    mergeContribution false [] c6wLayer = some { find := "BACKGROUND", replace := "" } ∧
    resolveAsset true [("7", "https://img.example/u.png")] c6wLayer =
      Asset.image "https://img.example/u.png" ∧
    mergeContribution true [("7", "https://img.example/u.png")] c6wLayer = none :=
  ⟨(claim_C6 []).1 false c6wLayer "BACKGROUND" rfl (by decide),
   ((claim_C6 [("7", "https://img.example/u.png")]).2.1 c6wLayer "7"
      "https://img.example/u.png" "\x7b\x7b BACKGROUND \x7d\x7d" rfl (by decide) rfl rfl).1,
   ((claim_C6 [("7", "https://img.example/u.png")]).2.1 c6wLayer "7"
      "https://img.example/u.png" "\x7b\x7b BACKGROUND \x7d\x7d" rfl (by decide) rfl rfl).2
     (by decide)⟩

/-- The vector node of the C6 counterexample page. -/
def c6Vec : Node :=
  Node.mk (some "1") "VECTOR" (some "Thing")
    (some ⟨some 0, some 0, some 100, some 100⟩) [] none none []

/-- The C6 counterexample page: one vector layer, no main frame. -/
def c6Page : Node :=
  Node.mk (some "0:0") "CANVAS" (some "Page 1") none [] none none [c6Vec]

/-- The layer the walker produces for the C6 counterexample page. -/
def c6Layer : Layer :=
  { parse_frame_node c6Vec 1200 1200 with node_id := some "1", node_name := some "Thing" }

/-- C6 as stated is false: when the resolved-URL map maps the layer's
fetch-target id to a string that itself matches the placeholder syntax, the
asset src is overwritten in place and a merge-variable entry is nevertheless
emitted for that layer. -/
theorem claim_C6_counterexample :
    ((convert_to_shotstack c6Page 1200 1200 5 true [("1", "\x7b\x7b X \x7d\x7d")]
        false).timeline.tracks.map (fun tr => tr.clips.map (fun cl => cl.asset))) =
      [[Asset.image "\x7b\x7b X \x7d\x7d"]] ∧
    (convert_to_shotstack c6Page 1200 1200 5 true [("1", "\x7b\x7b X \x7d\x7d")]
        false).merge = some [{ find := "X", replace := "" }] := by
  have hch : c6Page.children = [c6Vec] := rfl
  have hfind : List.find? (fun c => c.ntype == "FRAME") [c6Vec] = none := rfl
  have hwalk : extract_children [c6Vec] 1200 1200 = [c6Layer] := by
    rw [extract_children_cons, extract_children_nil, extract_all_nodes]
    simp [c6Vec, Node.ntype, Node.id, Node.name, c6Layer]
  constructor <;>
    · simp only [convert_to_shotstack, hch, hfind]
      rw [hwalk]
      decide

/-! ### Claim C10: page-name sanitization collisions -/

/-- The entry stored for one page by `convert_all_pages_to_shotstack`: the
original page name plus the template of the first page carrying that name
(re-extraction by name, as in the source). -/
def pageEntry (pages : List Node) (ow oh dur : ℚ) (pop : Bool)
    (imgs : List (String × String)) (io : Bool) (p : Node) : PageEntry :=
  { original_name := p.name.getD "",
    template := convert_to_shotstack ((extract_page pages (some (p.name.getD ""))).getD p)
      ow oh dur pop imgs io }

theorem lookupKey_nil {α : Type} (k : String) :
    lookupKey ([] : List (String × α)) k = none := rfl

/-- Lookup steps through one binding: hit on a key match, skip otherwise. -/
theorem lookupKey_cons {α : Type} (k₀ : String) (v₀ : α) (tl : List (String × α))
    (k' : String) :
    lookupKey ((k₀, v₀) :: tl) k' = if k₀ = k' then some v₀ else lookupKey tl k' := by
  simp only [lookupKey, List.find?]
  by_cases h : k₀ = k'
  · rw [if_pos h, show ((k₀, v₀).1 == k') = true from by simpa using h]
    rfl
  · rw [if_neg h, show ((k₀, v₀).1 == k') = false from by simpa using h]

/-- Dict assignment then lookup: the assigned key reads back the new value,
every other key is untouched. -/
theorem lookupKey_upsert {α : Type} (l : List (String × α)) (k k' : String) (v : α) :
    lookupKey (upsert l k v) k' = if k' = k then some v else lookupKey l k' := by
  induction l with
  | nil =>
    show lookupKey [(k, v)] k' = _
    rw [lookupKey_cons, lookupKey_nil]
    by_cases h : k' = k
    · simp [h]
    · simp [h, Ne.symm h]
  | cons hd tl ih =>
    obtain ⟨k₀, v₀⟩ := hd
    show lookupKey (if (k₀ == k) = true then (k, v) :: tl else (k₀, v₀) :: upsert tl k v) k' = _
    by_cases h0 : k₀ = k
    · rw [if_pos (by simpa using h0), lookupKey_cons, lookupKey_cons]
      subst h0
      by_cases h : k' = k₀
      · simp [h]
      · simp [h, Ne.symm h]
    · rw [if_neg (by simpa using h0), lookupKey_cons, lookupKey_cons, ih]
      by_cases h : k₀ = k'
      · have hkk : ¬ k' = k := fun he => h0 (h.trans he)
        simp [h, hkk]
      · simp [h]

/-- Folding dict assignments over the page list: the value finally stored
under `k` is the entry of the last page whose key is `k`. -/
theorem lookup_foldl_upsert {α : Type} (keyf : Node → String) (f : Node → α)
    (k : String) (pages : List Node) :
    ∀ acc : List (String × α),
      lookupKey (pages.foldl (fun a p => upsert a (keyf p) (f p)) acc) k =
        (match pages.reverse.find? (fun p => keyf p == k) with
         | some p => some (f p)
         | none => lookupKey acc k) := by
  induction pages with
  | nil => intro acc; simp
  | cons p ps ih =>
    intro acc
    rw [List.foldl_cons, ih, List.reverse_cons, List.find?_append]
    cases hfind : ps.reverse.find? (fun q => keyf q == k) with
    | some q => rfl
    | none =>
      show lookupKey (upsert acc (keyf p) (f p)) k =
        (match Option.or none (List.find? (fun q => keyf q == k) [p]) with
         | some q => some (f q)
         | none => lookupKey acc k)
      rw [lookupKey_upsert]
      by_cases hk : keyf p = k
      · rw [if_pos hk.symm]
        simp [List.find?, show (keyf p == k) = true from by simpa using hk]
      · rw [if_neg (fun he => hk he.symm)]
        simp [List.find?, show (keyf p == k) = false from by simpa using hk]

/-- First page of the C10 collision example: named `A/B`. -/
def c10PageA : Node := Node.mk (some "p:1") "CANVAS" (some "A/B") none [] none none []

/-- Second page of the C10 collision example: named `A B`. -/
def c10PageB : Node := Node.mk (some "p:2") "CANVAS" (some "A B") none [] none none []

/-- C10: the all-pages conversion keys each entry by the sanitized page name,
and on a key collision the later page's entry silently overwrites the earlier
one: for every key the stored value is the entry of the last page sanitizing
to that key, and concretely the two pages named "A/B" and "A B" both sanitize
to "A_B", so the result holds one single entry, the second page's. -/
theorem claim_C10 :
    (∀ (pages : List Node) (ow oh dur : ℚ) (pop : Bool) (imgs : List (String × String))
        (io : Bool) (k : String),
      lookupKey (convert_all_pages_to_shotstack pages ow oh dur pop imgs io) k =
        (match pages.reverse.find? (fun p => sanitizeName (p.name.getD "") == k) with
         | some p => some (pageEntry pages ow oh dur pop imgs io p)
         | none => none)) ∧
    (convert_all_pages_to_shotstack [c10PageA, c10PageB] 10 10 5 false [] false).length = 1 ∧
    lookupKey (convert_all_pages_to_shotstack [c10PageA, c10PageB] 10 10 5 false [] false)
        "A_B" =
      some (pageEntry [c10PageA, c10PageB] 10 10 5 false [] false c10PageB) := by
  have huniv : ∀ (pages : List Node) (ow oh dur : ℚ) (pop : Bool)
      (imgs : List (String × String)) (io : Bool) (k : String),
      lookupKey (convert_all_pages_to_shotstack pages ow oh dur pop imgs io) k =
        (match pages.reverse.find? (fun p => sanitizeName (p.name.getD "") == k) with
         | some p => some (pageEntry pages ow oh dur pop imgs io p)
         | none => none) := by
    intro pages ow oh dur pop imgs io k
    have heq : convert_all_pages_to_shotstack pages ow oh dur pop imgs io =
        pages.foldl
          (fun a p => upsert a (sanitizeName (p.name.getD ""))
            (pageEntry pages ow oh dur pop imgs io p)) [] := rfl
    rw [heq, lookup_foldl_upsert]
    cases pages.reverse.find? (fun p => sanitizeName (p.name.getD "") == k) <;> rfl
  refine ⟨huniv, ?_, ?_⟩
  · have heq : convert_all_pages_to_shotstack [c10PageA, c10PageB] 10 10 5 false [] false =
        upsert (upsert [] (sanitizeName "A/B")
            (pageEntry [c10PageA, c10PageB] 10 10 5 false [] false c10PageA))
          (sanitizeName "A B")
          (pageEntry [c10PageA, c10PageB] 10 10 5 false [] false c10PageB) := rfl
    rw [heq]
    have hsanA : sanitizeName "A/B" = "A_B" := by decide
    have hsanB : sanitizeName "A B" = "A_B" := by decide
    rw [hsanA, hsanB]
    rfl
  · rw [huniv]
    have hsanB : (sanitizeName ((c10PageB.name).getD "") == "A_B") = true := by decide
    simp [List.find?, hsanB]

end FigmaShotstack
